import Mathlib

/-!
# Omnichannel Conversation Routing & Closure Engine — verification

Shallow embedding of the Livechat service class (`LivechatClass`):
availability resolution with department fallback chains
(`checkOnlineAgents`), tag-policy resolution (`resolveChatTags`), the
room-closure coordinator (`closeRoom`), and transcript generation
(`sendTranscript`).  Collaborator reads (department directory, online
agent counts, message store, visitor store) are passed in as explicit
environments; store writes, inserted system messages and emitted events
are returned as part of each operation's result so that "no effect"
claims can be stated directly.  Timestamps are integers (milliseconds,
as in `Date.getTime()`); durations divide by 1000 into `ℚ`, which makes
the source's floating-point division by 1000 exact.
-/

/-- A department record, as read from the department directory
(`LivechatDepartment.findOneById`): the fallback target, the
tag-before-close policy flag and the mandatory closing tags. -/
structure Department where
  fallbackForwardDepartment : Option String
  requestTagBeforeClosingChat : Bool
  chatClosingTags : Option (List String)
deriving DecidableEq, Repr

/-- The read-only collaborators consulted by the availability resolver:
department lookup (`LivechatDepartment.findOneById`), per-department
online check (`LivechatDepartmentAgents.checkOnlineForDepartment`),
per-agent online check (`Users.checkOnlineAgents(agentId)`) and the
system-wide online check (`Users.checkOnlineAgents()`). -/
structure AvailEnv where
  findDepartment : String → Option Department
  onlineForDepartment : String → Bool
  onlineAgent : String → Bool
  anyOnlineAgent : Bool

/-- Embedding of `LivechatClass.checkOnlineAgents(department?, agent?,
skipFallbackCheck)`.  The source recurses into the fallback department
with no cycle guard; `fuel` bounds the number of fallback hops the
embedding is allowed to take, and `none` means the source call would
still be recursing after `fuel` hops (so `∀ fuel, … = none` states
non-termination of the source). -/
def checkOnlineAgents (env : AvailEnv) (fuel : Nat) (department : Option String)
    (agent : Option String) (skipFallbackCheck : Bool) : Option Bool :=
  match agent with
  | some agentId => some (env.onlineAgent agentId)
  | none =>
    match department with
    | none => some env.anyOnlineAgent
    | some d =>
      let onlineForDep := env.onlineForDepartment d
      if onlineForDep || skipFallbackCheck then some onlineForDep
      else
        match env.findDepartment d with
        | none => some onlineForDep
        | some dep =>
          match dep.fallbackForwardDepartment with
          | none => some onlineForDep
          | some fb =>
            match fuel with
            | 0 => none
            | fuel' + 1 => checkOnlineAgents env fuel' (some fb) none false

/-- Chain predicate `FallChain env d ds`: the list `ds` is the complete fallback chain starting
at department id `d` — consecutive entries are linked by
`fallbackForwardDepartment` and the last entry has no fallback target
(either its directory record is missing or the record has no fallback).
The existence of such a finite chain is exactly acyclicity of the
fallback references reachable from `d`. -/
inductive FallChain (env : AvailEnv) : String → List String → Prop
  | last (d : String)
      (h : ∀ dep, env.findDepartment d = some dep → dep.fallbackForwardDepartment = none) :
      FallChain env d [d]
  | step (d : String) (dep : Department) (fb : String) (ds : List String)
      (h1 : env.findDepartment d = some dep)
      (h2 : dep.fallbackForwardDepartment = some fb)
      (h3 : FallChain env fb ds) :
      FallChain env d (d :: ds)

theorem FallChain.ne_nil {env : AvailEnv} {d : String} {ds : List String}
    (h : FallChain env d ds) : ds ≠ [] := by
  cases h <;> simp

/-- Concrete cyclic directory: department `D1` falls back to itself and
no agent anywhere is online. -/
def cycDept : Department :=
  { fallbackForwardDepartment := some "D1"
    requestTagBeforeClosingChat := false
    chatClosingTags := none }

/-- Environment for the cyclic-fallback scenario: `D1 → D1`, all agents
offline. -/
def cycEnv : AvailEnv :=
  { findDepartment := fun d => if d = "D1" then some cycDept else none
    onlineForDepartment := fun _ => false
    onlineAgent := fun _ => false
    anyOnlineAgent := false }

/-! ## Tag-policy resolution -/

/-- The visitor subdocument carried on a room (`room.v`) and the visitor
record returned by `LivechatVisitors.getVisitorByToken`. -/
structure Visitor where
  _id : String
  token : String
  username : Option String
  language : Option String
deriving DecidableEq, Repr

/-- The `servedBy` subdocument of a room: the assigned servicing agent
and the assignment timestamp (milliseconds). -/
structure ServedBy where
  _id : String
  ts : Int
deriving DecidableEq, Repr

/-- An omnichannel conversation record (`IOmnichannelRoom`), restricted
to the fields the engine reads.  `isOpen` embeds the source's `open`
flag (`open` is a Lean keyword); `ts` is the creation timestamp in
milliseconds; `transcriptRequest` records whether a transcript request
is present on the room. -/
structure Room where
  _id : String
  t : String
  isOpen : Bool
  ts : Int
  servedBy : Option ServedBy
  departmentId : Option String
  tags : Option (List String)
  v : Option Visitor
  transcriptRequest : Bool
deriving DecidableEq, Repr

/-- Modelled from the spec: `isOmnichannelRoom` is imported from
`@rocket.chat/core-typings` (not under `src/`); per the spec the guard
requires the room to "be of the omnichannel kind", i.e. a
visitor-conversation (`'l'`) room. -/
def isOmnichannelRoom (room : Room) : Bool :=
  room.t = "l"

/-- The close-request options (`CloseRoomParams['options']`).
`emailTranscript` and `pdfTranscript` are carried opaquely (the engine
never inspects them on the paths modelled here). -/
structure ROptions where
  clientAction : Option Bool := none
  tags : Option (List String) := none
  emailTranscript : Option Bool := none
  pdfTranscript : Option String := none
deriving DecidableEq, Repr

/-- JS truthiness of the optional `clientAction` flag. -/
def ROptions.clientActionB (o : ROptions) : Bool :=
  o.clientAction.getD false

/-- Insert a string at the end unless already present — one step of
JS `new Set` construction (first occurrence wins, insertion order
preserved). -/
def insertUnique (acc : List String) (x : String) : List String :=
  if x ∈ acc then acc else acc ++ [x]

/-- Embedding of the source's `concatUnique`: drop the `undefined`
arrays, concatenate the rest, and deduplicate keeping the first
occurrence (`[...new Set([].concat(...arrays.filter(a => !!a)))]`). -/
def concatUnique (arrays : List (Option (List String))) : List String :=
  ((arrays.filterMap id).flatten).foldl insertUnique []

/-- Embedding of the spread `{ ...options, ...(tags.length && { tags }) }`:
the `tags` field is overwritten only when the computed list is
non-empty (JS: `0` is falsy, so an empty list spreads nothing). -/
def setTagsIfNonempty (options : ROptions) (tags : List String) : ROptions :=
  if tags = [] then options else { options with tags := some tags }

/-- Embedding of `LivechatClass.resolveChatTags`.  The department
directory read (`LivechatDepartment.findOneById`) is the function
argument; the operation performs no store write, so it is a pure
function of the room, the request options and the directory.
`Except.error` embeds the thrown
`error-tags-must-be-assigned-before-closing-chat`. -/
def resolveChatTags (findDepartment : String → Option Department)
    (room : Room) (options : ROptions) : Except String ROptions :=
  -- source: `const { departmentId, tags: optionsTags } = room;`
  --         `const { clientAction, tags: oldRoomTags } = options;`
  let roomTags := concatUnique [options.tags, room.tags]
  match room.departmentId with
  | none => .ok (setTagsIfNonempty options roomTags)
  | some departmentId =>
    match findDepartment departmentId with
    | none => .ok (setTagsIfNonempty options roomTags)
    | some department =>
      let extraRoomTags := concatUnique [some roomTags, department.chatClosingTags]
      if department.requestTagBeforeClosingChat = false then
        .ok (setTagsIfNonempty options extraRoomTags)
      else
        -- `!clientAction || (roomTags && roomTags.length > 0)`
        let checkRoomTags := !options.clientActionB || decide (0 < roomTags.length)
        -- `chatClosingTags && chatClosingTags.length > 0`
        -- (both `undefined` and `[]` fail the check)
        let checkDepartmentTags := decide (0 < (department.chatClosingTags.getD []).length)
        if !checkRoomTags || !checkDepartmentTags then
          .error "error-tags-must-be-assigned-before-closing-chat"
        else
          .ok (setTagsIfNonempty options extraRoomTags)

/-! ## Closure coordinator -/

/-- The closer of a room: a tagged union of an authenticated user and a
visitor (`CloseRoomParamsByUser` / `CloseRoomParamsByVisitor`). -/
inductive Closer where
  | user (id : String) (username : Option String)
  | visitor (id : String) (username : Option String)
deriving DecidableEq, Repr

/-- Embedding of `CloseRoomParams`.  `room` is optional so that the
source's defensive `!room` guard is expressible; the TS union type
guarantees exactly one of user/visitor, embedded as the `Closer` sum
(the source's unreachable "neither supplied" throw is dead under this
typing). -/
structure CloseRoomParams where
  room : Option Room
  comment : Option String
  options : ROptions
  closer : Closer
deriving DecidableEq, Repr

/-- The closure metadata written onto the room
(`IOmnichannelRoomClosingInfo` plus the spread `...options`).
Durations are in seconds (`ℚ`, exact image of the source's division by
1000).  `serviceTimeDuration = none` embeds the field being absent. -/
structure ClosingInfo where
  closedAt : Int
  chatDuration : ℚ
  serviceTimeDuration : Option ℚ
  closerKind : String
  closedById : String
  closedByUsername : Option String
  options : ROptions
deriving DecidableEq, Repr

/-- A system message inserted during closure. -/
structure SysMessage where
  t : String
  msg : Option String
  transcriptRequested : Bool
deriving DecidableEq, Repr

/-- The outcome of a `closeRoom` call that did not throw: either the
guard returned early (`noop` — no store write, no message, no event),
or the room was closed, carrying the updated room record, the closure
metadata, the inserted system messages and the emitted event names. -/
inductive CloseOutcome where
  | noop
  | closed (newRoom : Room) (info : ClosingInfo) (messages : List SysMessage)
      (events : List String)
deriving DecidableEq, Repr

/-- Builds the `closeData` record: `closedAt = now`,
`chatDuration = (now - room.ts) / 1000`, and `serviceTimeDuration`
present only when `servedBy` exists **and** the computed value is
truthy (the source spreads `...(serviceTimeDuration && { ... })`, so a
duration of exactly `0` is dropped). -/
def mkClosingInfo (now : Int) (room : Room) (closer : Closer) (options : ROptions) :
    ClosingInfo :=
  { closedAt := now
    chatDuration := ((now : ℚ) - (room.ts : ℚ)) / 1000
    serviceTimeDuration :=
      match room.servedBy with
      | none => none
      | some sb =>
        let d : ℚ := ((now : ℚ) - (sb.ts : ℚ)) / 1000
        if d = 0 then none else some d
    closerKind := match closer with | .user _ _ => "user" | .visitor _ _ => "visitor"
    closedById := match closer with | .user i _ => i | .visitor i _ => i
    closedByUsername := match closer with | .user _ u => u | .visitor _ u => u
    options := options }

/-- Modelled from the spec: the store update
`LivechatRooms.closeRoomById` (in `@rocket.chat/models`, not under
`src/`) "marks the room closed with all closure metadata" — the room
record re-read afterwards has its open flag cleared; the metadata
itself is carried in the `ClosingInfo`. -/
def closedRoomUpdate (room : Room) : Room :=
  { room with isOpen := false }

/-- The two system messages inserted on closure: the `livechat-close`
message carrying the optional comment and the transcript-requested
flag, then the `command` message prompting for a transcript. -/
def closeMessages (comment : Option String) (room : Room) : List SysMessage :=
  [ { t := "livechat-close", msg := comment, transcriptRequested := room.transcriptRequest }
  , { t := "command", msg := some "promptTranscript", transcriptRequested := false } ]

/-- The events fanned out after closure: the two app-bridge livechat
events and the generic `livechat.closeRoom` callback chain. -/
def closeEventNames : List String :=
  ["ILivechatRoomClosedHandler", "IPostLivechatRoomClosed", "livechat.closeRoom"]

/-- Embedding of `LivechatClass.closeRoom`.  The guard
(`!room || !isOmnichannelRoom(room) || !room.open`) returns `noop`;
a tag-policy violation propagates as `Except.error` before any write;
otherwise the multi-store update, the system messages and the event
fan-out are recorded in the `closed` outcome. -/
def closeRoom (findDepartment : String → Option Department) (now : Int)
    (params : CloseRoomParams) : Except String CloseOutcome :=
  match params.room with
  | none => .ok .noop
  | some room =>
    if isOmnichannelRoom room && room.isOpen then
      match resolveChatTags findDepartment room params.options with
      | .error e => .error e
      | .ok options =>
        .ok (.closed (closedRoomUpdate room)
              (mkClosingInfo now room params.closer options)
              (closeMessages params.comment room)
              closeEventNames)
    else .ok .noop

/-- The observable side effects of a `closeRoom` call: the inserted
system messages, the emitted events, and whether the multi-store write
was performed.  Early returns and thrown errors perform none. -/
def closeEffects : Except String CloseOutcome → List SysMessage × List String × Bool
  | .ok (.closed _ _ msgs evs) => (msgs, evs, true)
  | _ => ([], [], false)

/-- Returns `true` when the call neither threw nor was a guard no-op. -/
def closeSucceeds : Except String CloseOutcome → Bool
  | .ok (.closed _ _ _ _) => true
  | _ => false

/-- The closure metadata of a successful close, when there is one. -/
def closedInfo : Except String CloseOutcome → Option ClosingInfo
  | .ok (.closed _ info _ _) => some info
  | _ => none

/-! ## Transcript generator -/

/-- A message record, restricted to the fields the transcript path
reads: the optional system-message type `t` (absent on ordinary
messages), the timestamp, the author and the text. -/
structure Msg where
  _id : String
  t : Option String
  ts : Int
  uId : String
  msg : String
deriving DecidableEq, Repr

/-- Chronological order on messages. -/
def msgLe (a b : Msg) : Prop := a.ts ≤ b.ts

instance : DecidableRel msgLe := fun a b => inferInstanceAs (Decidable (a.ts ≤ b.ts))

instance : IsTotal Msg msgLe := ⟨fun a b => Int.le_total a.ts b.ts⟩

instance : IsTrans Msg msgLe := ⟨fun _ _ _ hab hbc => le_trans hab hbc⟩

/-- The fixed ignored-type set of `sendTranscript`. -/
def ignoredMessageTypes : List String :=
  [ "livechat_navigation_history"
  , "livechat_transcript_history"
  , "command"
  , "livechat-close"
  , "livechat-started"
  , "livechat_video_call" ]

/-- Modelled from the spec: the store query
`Messages.findVisibleByRoomIdNotContainingTypesBeforeTs` (in
`@rocket.chat/models`, not under `src/`) — of the room's visible
messages, those whose type is not among the excluded kinds and whose
timestamp is strictly before the cutoff, "ordered chronologically
ascending". -/
def findVisibleByRoomIdNotContainingTypesBeforeTs
    (msgs : List Msg) (ignored : List String) (beforeTs : Int) : List Msg :=
  List.insertionSort msgLe
    (msgs.filter fun m =>
      (match m.t with
       | none => true
       | some ty => !(decide (ty ∈ ignored))) && decide (m.ts < beforeTs))

/-- A user record used for transcript audit attribution
(`Pick<IUser, '_id' | 'username' | ...>` and the `rocket.cat`
fallback). -/
structure AuditUser where
  _id : String
  username : Option String
deriving DecidableEq, Repr

/-- The collaborators consulted by `sendTranscript`: room lookup,
visitor-by-token lookup, the room's visible messages, the recorded
closing message's timestamp, the current time and the `rocket.cat`
system account. -/
structure TranscriptEnv where
  findRoom : String → Option Room
  getVisitorByToken : String → Option Visitor
  roomMessages : String → List Msg
  closingMessageTs : String → Option Int
  now : Int
  rocketCat : Option AuditUser

/-- The observable result of a successful `sendTranscript`: the
messages rendered into the document, the email recipient and the
audit system-message attribution (`requestData.type` and the attributed
user). -/
structure TranscriptOutcome where
  includedMessages : List Msg
  emailTo : String
  auditType : String
  auditUserId : String
deriving DecidableEq, Repr

/-- Result of `sendTranscript`: on failure the thrown error message,
together with whether the email had already been dispatched before the
throw (the audit-attribution failure occurs after `sendEmail`; the
token/room validation failures occur before it). -/
inductive TResult where
  | failed (e : String) (emailSent : Bool)
  | sent (out : TranscriptOutcome)
deriving DecidableEq, Repr

/-- Embedding of `LivechatClass.sendTranscript`.  Rendering (locale,
timezone, HTML concatenation) does not change which messages appear and
is abstracted to the included-message list; the sender-address regex
extraction is likewise orthogonal to the claims and omitted. -/
def sendTranscript (env : TranscriptEnv) (token : String) (rid : String)
    (email : String) (user : Option AuditUser) : TResult :=
  -- source order: the room read is issued first, the visitor check fires first
  match env.getVisitorByToken token with
  | none => .failed "error-invalid-token" false
  | some _ =>
    match env.findRoom rid with
    | none => .failed "error-invalid-room" false
    | some room =>
      -- `room.t !== 'l' || !room.v || room.v.token !== token`
      if room.t = "l" ∧ room.v.map Visitor.token = some token then
        let messages := findVisibleByRoomIdNotContainingTypesBeforeTs
          (env.roomMessages rid) ignoredMessageTypes
          ((env.closingMessageTs rid).getD env.now)
        -- `this.sendEmail(...)` is dispatched here in the source
        let requestUser : Option (AuditUser × String) :=
          match user with
          | some u =>
            if u.username = none then
              match env.rocketCat with
              | some cat => some (cat, "visitor")
              | none => some (u, "user")
            else some (u, "user")
          | none =>
            match env.rocketCat with
            | some cat => some (cat, "visitor")
            | none => none
        match requestUser with
        | none => .failed "No user provided and rocket.cat not found" true
        | some (au, ty) =>
          .sent { includedMessages := messages
                  emailTo := email
                  auditType := ty
                  auditUserId := au._id }
      else .failed "error-invalid-room" false

/-- The transcript audit system messages written by a call: the
`livechat_transcript_history` record, present only on success. -/
def transcriptAuditWrites : TResult → List String
  | .sent o => [o.auditType]
  | .failed _ _ => []

/-- Whether the call dispatched the transcript email. -/
def transcriptEmailSent : TResult → Bool
  | .sent _ => true
  | .failed _ b => b

/-! ## Helper lemmas on tag merging -/

theorem mem_insertUnique {acc : List String} {x y : String} :
    y ∈ insertUnique acc x ↔ y ∈ acc ∨ y = x := by
  unfold insertUnique
  by_cases h : x ∈ acc
  · simp only [if_pos h]
    exact ⟨Or.inl, fun hy => hy.elim id (fun he => he ▸ h)⟩
  · simp [if_neg h]

theorem mem_foldl_insertUnique (l : List String) (acc : List String) (x : String) :
    x ∈ l.foldl insertUnique acc ↔ x ∈ acc ∨ x ∈ l := by
  induction l generalizing acc with
  | nil => simp
  | cons a l ih =>
    simp only [List.foldl_cons, ih, mem_insertUnique, List.mem_cons]
    tauto

theorem mem_concatUnique {arrays : List (Option (List String))} {x : String} :
    x ∈ concatUnique arrays ↔ ∃ xs, some xs ∈ arrays ∧ x ∈ xs := by
  unfold concatUnique
  rw [mem_foldl_insertUnique]
  simp only [List.not_mem_nil, false_or, List.mem_flatten, List.mem_filterMap, id_eq]
  constructor
  · rintro ⟨l, ⟨a, ha, rfl⟩, hx⟩
    exact ⟨l, ha, hx⟩
  · rintro ⟨xs, hxs, hx⟩
    exact ⟨xs, ⟨some xs, hxs, rfl⟩, hx⟩

theorem mem_concatUnique_pair {a b : Option (List String)} {x : String} :
    x ∈ concatUnique [a, b] ↔ x ∈ a.getD [] ∨ x ∈ b.getD [] := by
  rw [mem_concatUnique]
  cases a <;> cases b <;> simp

theorem concatUnique_eq_nil {arrays : List (Option (List String))} :
    concatUnique arrays = [] ↔ ∀ xs, some xs ∈ arrays → xs = [] := by
  rw [List.eq_nil_iff_forall_not_mem]
  constructor
  · intro h xs hxs
    rw [List.eq_nil_iff_forall_not_mem]
    intro x hx
    exact h x (mem_concatUnique.2 ⟨xs, hxs, hx⟩)
  · intro h x hx
    obtain ⟨xs, hxs, hmem⟩ := mem_concatUnique.1 hx
    rw [h xs hxs] at hmem
    exact List.not_mem_nil x hmem

/-! ## C1: cyclic fallback chains -/

/-- C1: the claim states that `checkOnlineAgents` on a department in a
fallback cycle with no online agents terminates and returns `false`.
The source has no cycle guard: on the concrete directory where `D1`
falls back to itself and nobody is online, the call is still recursing
after any number `fuel` of fallback hops — it never terminates, so in
particular it never returns `false`.  (The spec itself flags the
missing hop ceiling as the required fix, so the code, not the claim, is
at fault.) -/
theorem checkOnlineAgents_cycle_diverges :
    ∀ fuel : Nat, checkOnlineAgents cycEnv fuel (some "D1") none false = none := by
  intro fuel
  induction fuel with
  | zero => rfl
  | succ n ih => exact ih

/-! ## C4: acyclic fallback chains -/

/-- C4: on an acyclic fallback chain `ds` starting at `d` (with no
forced agent and fallback not skipped), `checkOnlineAgents` terminates
once the hop budget covers the chain, and returns `true` exactly when
some department of the chain, walked in `fallbackForwardDepartment`
order, reports an online agent — `false` when none does. -/
theorem checkOnlineAgents_acyclic_chain (env : AvailEnv) (d : String) (ds : List String)
    (fuel : Nat) (hc : FallChain env d ds) (hfuel : ds.length ≤ fuel + 1) :
    checkOnlineAgents env fuel (some d) none false =
      some (ds.any env.onlineForDepartment) := by
  induction hc generalizing fuel with
  | last d h =>
    rw [checkOnlineAgents]
    cases hd : env.onlineForDepartment d with
    | true => simp [hd]
    | false =>
      simp only [hd, Bool.false_or, if_false, List.any_cons, List.any_nil, Bool.or_false]
      cases hfd : env.findDepartment d with
      | none => simp
      | some dep => simp [h dep hfd]
  | step d dep fb ds h1 h2 h3 ih =>
    rw [checkOnlineAgents]
    cases hd : env.onlineForDepartment d with
    | true => simp [hd]
    | false =>
      simp only [hd, Bool.false_or, if_false, h1, h2, List.any_cons]
      cases fuel with
      | zero =>
        exfalso
        have := h3.ne_nil
        have hlen : ds.length = 0 := by
          simp only [List.length_cons] at hfuel
          omega
        exact this (List.eq_nil_of_length_eq_zero hlen)
      | succ fuel' =>
        have hlen : ds.length ≤ fuel' + 1 := by
          simpa using Nat.le_of_succ_le_succ (by simpa using hfuel)
        simpa using ih fuel' hlen

/-- Directory record of `D2`: it falls back to `D3`. -/
def deptD2 : Department :=
  { fallbackForwardDepartment := some "D3"
    requestTagBeforeClosingChat := false
    chatClosingTags := none }

/-- Environment for the acyclic scenario: `D2` has zero online agents
and falls back to `D3`, which has an online agent (and no directory
record of its own, hence no further fallback). -/
def chainEnv : AvailEnv :=
  { findDepartment := fun d => if d = "D2" then some deptD2 else none
    onlineForDepartment := fun d => d == "D3"
    onlineAgent := fun _ => false
    anyOnlineAgent := false }

theorem checkOnlineAgents_acyclic_chain_witness :
    checkOnlineAgents chainEnv 1 (some "D2") none false = some true := by
  have hlast : FallChain chainEnv "D3" ["D3"] := by
    refine FallChain.last "D3" ?_
    intro dep hdep
    simp [chainEnv] at hdep
  have hchain : FallChain chainEnv "D2" ["D2", "D3"] :=
    FallChain.step "D2" deptD2 "D3" ["D3"] (by simp [chainEnv]) rfl hlast
  have h := checkOnlineAgents_acyclic_chain chainEnv "D2" ["D2", "D3"] 1 hchain
    (by simp)
  exact h.trans (by decide)

/-! ## Helper lemmas on the closure coordinator -/

theorem closeRoom_noop_of_guard (f : String → Option Department) (now : Int)
    (p : CloseRoomParams)
    (h : p.room = none ∨
      ∃ r, p.room = some r ∧ (isOmnichannelRoom r = false ∨ r.isOpen = false)) :
    closeRoom f now p = .ok .noop := by
  unfold closeRoom
  rcases h with hr | ⟨r, hr, hcond⟩
  · rw [hr]
  · rw [hr]
    have hg : (isOmnichannelRoom r && r.isOpen) = false := by
      rcases hcond with h1 | h1 <;> simp [h1]
    simp [hg]

theorem closeRoom_closed_inv (f : String → Option Department) (now : Int)
    (p : CloseRoomParams) (nr : Room) (info : ClosingInfo) (msgs : List SysMessage)
    (evs : List String)
    (h : closeRoom f now p = .ok (.closed nr info msgs evs)) :
    ∃ room options, p.room = some room ∧ isOmnichannelRoom room = true ∧
      room.isOpen = true ∧ resolveChatTags f room p.options = .ok options ∧
      nr = closedRoomUpdate room ∧ info = mkClosingInfo now room p.closer options ∧
      msgs = closeMessages p.comment room ∧ evs = closeEventNames := by
  unfold closeRoom at h
  split at h
  · simp at h
  · next room hr =>
    split at h
    · next hg =>
      split at h
      · simp at h
      · next options ht =>
        simp only [Except.ok.injEq, CloseOutcome.closed.injEq] at h
        obtain ⟨hnr, hinfo, hmsgs, hevs⟩ := h
        rw [Bool.and_eq_true] at hg
        exact ⟨room, options, hr, hg.1, hg.2, ht,
          hnr.symm, hinfo.symm, hmsgs.symm, hevs.symm⟩
    · next hg => simp at h

/-! ## C2: the guard makes closing a non-open room a no-op -/

/-- C2: when the room is absent, not of the omnichannel kind, or not
currently open, `closeRoom` returns successfully with the `noop`
outcome: no store write is performed, no system message is inserted and
no event is emitted. -/
theorem closeRoom_guard_noop (f : String → Option Department) (now : Int)
    (p : CloseRoomParams)
    (h : p.room = none ∨
      ∃ r, p.room = some r ∧ (isOmnichannelRoom r = false ∨ r.isOpen = false)) :
    closeRoom f now p = .ok .noop ∧
      closeEffects (closeRoom f now p) = ([], [], false) := by
  have hmain := closeRoom_noop_of_guard f now p h
  exact ⟨hmain, by rw [hmain]; rfl⟩

/-- A closed room used to exercise the guard. -/
def roomClosed2 : Room :=
  { _id := "r2", t := "l", isOpen := false, ts := 0, servedBy := none
    departmentId := none, tags := none, v := none, transcriptRequest := false }

/-- A close request on the already-closed `roomClosed2`. -/
def params2 : CloseRoomParams :=
  { room := some roomClosed2, comment := some "again", options := {}
    closer := .user "u1" (some "agent1") }

theorem closeRoom_guard_noop_witness :
    closeRoom (fun _ => none) 1000 params2 = .ok .noop ∧
      closeEffects (closeRoom (fun _ => none) 1000 params2) = ([], [], false) :=
  closeRoom_guard_noop (fun _ => none) 1000 params2
    (Or.inr ⟨roomClosed2, rfl, Or.inr rfl⟩)

/-! ## C6: closing twice yields one transition -/

/-- C6: a successful closure flips the room to closed exactly once: a
second `closeRoom` call that observes the room written by the first
(any closer, any options, any time) is a guard no-op — no second
transition, no second set of closing messages, no second event
fan-out. -/
theorem closeRoom_idempotent (f : String → Option Department) (now now2 : Int)
    (p p2 : CloseRoomParams) (nr : Room) (info : ClosingInfo)
    (msgs : List SysMessage) (evs : List String)
    (h1 : closeRoom f now p = .ok (.closed nr info msgs evs))
    (h2 : p2.room = some nr) :
    closeRoom f now2 p2 = .ok .noop ∧
      closeEffects (closeRoom f now2 p2) = ([], [], false) := by
  obtain ⟨room, options, _, _, _, _, hnr, _, _, _⟩ :=
    closeRoom_closed_inv f now p nr info msgs evs h1
  have hclosed : nr.isOpen = false := by rw [hnr]; rfl
  have hmain := closeRoom_noop_of_guard f now2 p2 (Or.inr ⟨nr, h2, Or.inr hclosed⟩)
  exact ⟨hmain, by rw [hmain]; rfl⟩

/-- An open room with no department, closed by a user. -/
def room6 : Room :=
  { _id := "r6", t := "l", isOpen := true, ts := 0, servedBy := none
    departmentId := none, tags := none, v := none, transcriptRequest := false }

/-- First close request on `room6`. -/
def params6 : CloseRoomParams :=
  { room := some room6, comment := some "resolved", options := {}
    closer := .user "u1" (some "agent1") }

/-- Second close request, observing the room written by the first. -/
def params6b : CloseRoomParams :=
  { room := some (closedRoomUpdate room6), comment := none, options := {}
    closer := .visitor "v1" none }

theorem closeRoom_idempotent_witness :
    closeRoom (fun _ => none) 2000 params6b = .ok .noop ∧
      closeEffects (closeRoom (fun _ => none) 2000 params6b) = ([], [], false) :=
  closeRoom_idempotent (fun _ => none) 1000 2000 params6 params6b
    (closedRoomUpdate room6) (mkClosingInfo 1000 room6 params6.closer {})
    (closeMessages params6.comment room6) closeEventNames (by rfl) rfl


/-! ## C7: closure metadata -/

/-- The `serviceTimeDuration` computed by `mkClosingInfo`, unfolded. -/
theorem mkClosingInfo_serviceTime (now : Int) (room : Room) (c : Closer) (o : ROptions) :
    (mkClosingInfo now room c o).serviceTimeDuration =
      match room.servedBy with
      | none => none
      | some sb =>
        if ((now : ℚ) - (sb.ts : ℚ)) / 1000 = 0 then none
        else some (((now : ℚ) - (sb.ts : ℚ)) / 1000) := rfl

/-- An open room whose agent was assigned at the very instant the room
is later closed (`servedBy.ts = 5000 = now`). -/
def room7 : Room :=
  { _id := "r7", t := "l", isOpen := true, ts := 1000
    servedBy := some { _id := "ag", ts := 5000 }
    departmentId := none, tags := none, v := none, transcriptRequest := false }

/-- Close request on `room7`. -/
def params7 : CloseRoomParams :=
  { room := some room7, comment := none, options := {}
    closer := .user "u1" (some "agent1") }

/-- C7 counterexample: the claim says `serviceTimeDuration` is present
if and only if the room had an assigned servicing agent.  `room7` has
an assigned agent, yet closing it at `now = servedBy.ts` computes a
duration of `0`, which is falsy, so the spread
`...(serviceTimeDuration && { serviceTimeDuration })` drops the field:
the successful closure records no `serviceTimeDuration`. -/
theorem closeRoom_serviceTime_counterexample :
    room7.servedBy ≠ none ∧
      (closedInfo (closeRoom (fun _ => none) 5000 params7)).map
        ClosingInfo.serviceTimeDuration = some none := by
  constructor
  · simp [room7]
  · have h : closeRoom (fun _ => none) 5000 params7 =
        .ok (.closed (closedRoomUpdate room7)
          (mkClosingInfo 5000 room7 params7.closer {})
          (closeMessages params7.comment room7) closeEventNames) := by rfl
    rw [h]
    simp only [closedInfo, Option.map_some']
    rw [mkClosingInfo_serviceTime]
    have hsb : room7.servedBy = some { _id := "ag", ts := 5000 } := rfl
    rw [hsb]
    norm_num

/-- C7 (amended): for every successful closure, `closedAt` is the
closing time and `chatDuration` is the (nonnegative, given that the
close does not precede creation) number of seconds from the room's
creation to `closedAt`; `serviceTimeDuration` is present iff an agent
was assigned **and** the elapsed time is nonzero (the source drops the
field when the computed duration is exactly `0`), and when present it
equals the nonnegative number of seconds from assignment to
`closedAt`. -/
theorem closeRoom_closing_metadata (f : String → Option Department) (now : Int)
    (p : CloseRoomParams) (room nr : Room) (info : ClosingInfo)
    (msgs : List SysMessage) (evs : List String)
    (h : closeRoom f now p = .ok (.closed nr info msgs evs))
    (hroom : p.room = some room)
    (hts : room.ts ≤ now)
    (hsb : ∀ sb, room.servedBy = some sb → sb.ts ≤ now) :
    info.closedAt = now ∧
    info.chatDuration = ((now : ℚ) - (room.ts : ℚ)) / 1000 ∧
    0 ≤ info.chatDuration ∧
    ((info.serviceTimeDuration ≠ none) ↔ ∃ sb, room.servedBy = some sb ∧ sb.ts < now) ∧
    (∀ d, info.serviceTimeDuration = some d →
      ∃ sb, room.servedBy = some sb ∧ d = ((now : ℚ) - (sb.ts : ℚ)) / 1000 ∧ 0 ≤ d) := by
  obtain ⟨room', options, hr', _, _, _, _, hinfo, _, _⟩ :=
    closeRoom_closed_inv f now p nr info msgs evs h
  rw [hroom] at hr'
  injection hr' with hr2
  subst hr2
  subst hinfo
  have hzero : ∀ sbts : Int, sbts ≤ now →
      ((((now : ℚ) - (sbts : ℚ)) / 1000 = 0) ↔ now = sbts) := by
    intro sbts _
    rw [div_eq_zero_iff]
    constructor
    · rintro (h0 | h0)
      · exact_mod_cast sub_eq_zero.mp h0
      · norm_num at h0
    · intro h0
      left
      rw [sub_eq_zero]
      exact_mod_cast h0
  refine ⟨rfl, rfl, ?_, ?_, ?_⟩
  · apply div_nonneg _ (by norm_num)
    rw [sub_nonneg]
    exact_mod_cast hts
  · rw [mkClosingInfo_serviceTime]
    cases hsb' : room.servedBy with
    | none => simp
    | some sb =>
      have hle : sb.ts ≤ now := hsb sb hsb'
      by_cases hc : ((now : ℚ) - (sb.ts : ℚ)) / 1000 = 0
      · simp only [if_pos hc, ne_eq, not_true_eq_false, false_iff]
        have hnow : now = sb.ts := (hzero sb.ts hle).mp hc
        rintro ⟨sb2, hsb2, hlt⟩
        injection hsb2 with hsb3
        subst hsb3
        omega
      · simp only [if_neg hc, ne_eq, reduceCtorEq, not_false_eq_true, true_iff]
        have hne : now ≠ sb.ts := fun h0 => hc ((hzero sb.ts hle).mpr h0)
        exact ⟨sb, rfl, lt_of_le_of_ne hle (fun h0 => hne h0.symm)⟩
  · intro d hd
    rw [mkClosingInfo_serviceTime] at hd
    cases hsb' : room.servedBy with
    | none => rw [hsb'] at hd; simp at hd
    | some sb =>
      rw [hsb'] at hd
      simp only at hd
      have hle : sb.ts ≤ now := hsb sb hsb'
      split at hd
      · simp at hd
      · injection hd with hd2
        refine ⟨sb, rfl, hd2.symm, ?_⟩
        rw [← hd2]
        apply div_nonneg _ (by norm_num)
        rw [sub_nonneg]
        exact_mod_cast hle

/-- An open room served since `t = 2000` ms, closed at `t = 5000` ms. -/
def room7w : Room :=
  { _id := "r7w", t := "l", isOpen := true, ts := 1000
    servedBy := some { _id := "ag", ts := 2000 }
    departmentId := none, tags := none, v := none, transcriptRequest := false }

/-- Close request on `room7w`. -/
def params7w : CloseRoomParams :=
  { room := some room7w, comment := none, options := {}
    closer := .user "u1" (some "agent1") }

/-- The closing metadata computed for `room7w` at `now = 5000`. -/
def info7w : ClosingInfo := mkClosingInfo 5000 room7w params7w.closer {}

theorem closeRoom_closing_metadata_witness :
    info7w.closedAt = 5000 ∧
    info7w.chatDuration = ((5000 : ℚ) - (room7w.ts : ℚ)) / 1000 ∧
    0 ≤ info7w.chatDuration ∧
    ((info7w.serviceTimeDuration ≠ none) ↔
      ∃ sb, room7w.servedBy = some sb ∧ sb.ts < 5000) ∧
    (∀ d, info7w.serviceTimeDuration = some d →
      ∃ sb, room7w.servedBy = some sb ∧ d = ((5000 : ℚ) - (sb.ts : ℚ)) / 1000 ∧ 0 ≤ d) :=
  closeRoom_closing_metadata (fun _ => none) 5000 params7w room7w
    (closedRoomUpdate room7w) info7w (closeMessages params7w.comment room7w)
    closeEventNames (by rfl) rfl (by decide)
    (by
      intro sb hsb
      have h0 : room7w.servedBy = some { _id := "ag", ts := 2000 } := rfl
      rw [h0] at hsb
      injection hsb with h1
      subst h1
      decide)

/-! ## C3: the tag-before-close policy -/

/-- The boolean policy condition of `resolveChatTags`, restated as a
proposition: the throw fires iff the close is a client action with no
tag on the room **or** in the request, or the department has no
mandatory closing tag. -/
theorem tagPolicy_bool_iff (ca : Bool) (rt ct : List String) :
    ((!(!ca || decide (0 < rt.length)) || !decide (0 < ct.length)) = true) ↔
      ((ca = true ∧ rt = []) ∨ ct = []) := by
  cases ca <;> cases rt <;> cases ct <;> simp

/-- The function `resolveChatTags` throws the tag-policy error iff the department
requires tags before closing and either the request is a client action
with no tag available (neither on the room nor in the request) or the
department has no mandatory closing tag configured. -/
theorem resolveChatTags_error_iff (f : String → Option Department) (room : Room)
    (opts : ROptions) (did : String) (dept : Department)
    (hdid : room.departmentId = some did) (hdept : f did = some dept)
    (hreq : dept.requestTagBeforeClosingChat = true) :
    resolveChatTags f room opts = .error "error-tags-must-be-assigned-before-closing-chat" ↔
      ((opts.clientActionB = true ∧ concatUnique [opts.tags, room.tags] = []) ∨
        dept.chatClosingTags.getD [] = []) := by
  unfold resolveChatTags
  simp only [hdid, hdept, hreq, Bool.true_eq_false, if_false]
  split
  · next hcond =>
    exact iff_of_true rfl ((tagPolicy_bool_iff _ _ _).mp hcond)
  · next hcond =>
    exact iff_of_false (by simp)
      (fun hr => hcond ((tagPolicy_bool_iff _ _ _).mpr hr))

/-- C3 (amended): for an open omnichannel room whose department has
`requestTagBeforeClosingChat` set, `closeRoom` throws the tag-policy
error iff either the close is a client-initiated action and **neither
the room nor the request** carries a tag, or the department has no
mandatory closing tag configured; and whenever it throws, no store
write has been performed, no system message inserted and no event
emitted (the room record is untouched, hence still open). -/
theorem closeRoom_tag_policy_iff (f : String → Option Department) (now : Int)
    (p : CloseRoomParams) (room : Room) (did : String) (dept : Department)
    (hroom : p.room = some room) (homn : isOmnichannelRoom room = true)
    (hopen : room.isOpen = true)
    (hdid : room.departmentId = some did) (hdept : f did = some dept)
    (hreq : dept.requestTagBeforeClosingChat = true) :
    (closeRoom f now p = .error "error-tags-must-be-assigned-before-closing-chat" ↔
      ((p.options.clientActionB = true ∧ concatUnique [p.options.tags, room.tags] = []) ∨
        dept.chatClosingTags.getD [] = [])) ∧
    (∀ e, closeRoom f now p = .error e →
      closeEffects (closeRoom f now p) = ([], [], false)) := by
  have hguard : (isOmnichannelRoom room && room.isOpen) = true := by
    rw [homn, hopen]
    rfl
  have hred : closeRoom f now p =
      (match resolveChatTags f room p.options with
       | Except.error e => Except.error e
       | Except.ok options =>
         Except.ok (CloseOutcome.closed (closedRoomUpdate room)
           (mkClosingInfo now room p.closer options)
           (closeMessages p.comment room) closeEventNames)) := by
    unfold closeRoom
    simp only [hroom, hguard, if_true]
  constructor
  · rw [hred,
      ← resolveChatTags_error_iff f room p.options did dept hdid hdept hreq]
    cases ht : resolveChatTags f room p.options with
    | error e => simp
    | ok options => simp
  · intro e he
    rw [he]
    rfl

/-- Department `D1` of the counterexample: requires tags before
closing and has the mandatory closing tag `"x"`. -/
def dept3 : Department :=
  { fallbackForwardDepartment := none
    requestTagBeforeClosingChat := true
    chatClosingTags := some ["x"] }

/-- Directory containing only `dept3`. -/
def f3 : String → Option Department :=
  fun d => if d = "D1" then some dept3 else none

/-- An open room in department `D1` that carries **no** tag. -/
def room3 : Room :=
  { _id := "r3", t := "l", isOpen := true, ts := 0, servedBy := none
    departmentId := some "D1", tags := none, v := none, transcriptRequest := false }

/-- A client-initiated close request that supplies the tag `"a"`. -/
def opts3 : ROptions :=
  { clientAction := some true, tags := some ["a"]
    emailTranscript := none, pdfTranscript := none }

/-- The close request of the C3 counterexample. -/
def params3 : CloseRoomParams :=
  { room := some room3, comment := none, options := opts3, closer := .user "u1" none }

/-- C3 counterexample: the claim predicts the tag-policy error whenever
the close is client-initiated and the **room** carries no tag.  Here
the room carries no tag and the close is client-initiated, yet the
request supplies a tag, so the source's check
(`!clientAction || roomTags.length > 0`, over the merged request+room
tags) passes and the close succeeds instead of throwing. -/
theorem closeRoom_tag_policy_counterexample :
    room3.tags = none ∧ opts3.clientActionB = true ∧
    room3.departmentId = some "D1" ∧ f3 "D1" = some dept3 ∧
    dept3.requestTagBeforeClosingChat = true ∧
    closeSucceeds (closeRoom f3 1000 params3) = true := by
  exact ⟨rfl, rfl, rfl, rfl, rfl, rfl⟩

/-- Department of the C3 witness: requires tags before closing but has
no mandatory closing tag configured. -/
def dept3w : Department :=
  { fallbackForwardDepartment := none
    requestTagBeforeClosingChat := true
    chatClosingTags := none }

/-- Directory containing only `dept3w`. -/
def f3w : String → Option Department :=
  fun d => if d = "D1" then some dept3w else none

/-- An open tagless room in the witness department. -/
def room3w : Room :=
  { _id := "r3w", t := "l", isOpen := true, ts := 0, servedBy := none
    departmentId := some "D1", tags := none, v := none, transcriptRequest := false }

/-- The close request of the C3 witness. -/
def params3w : CloseRoomParams :=
  { room := some room3w, comment := none, options := {}, closer := .user "u1" none }

theorem closeRoom_tag_policy_iff_witness :
    (closeRoom f3w 1000 params3w = .error "error-tags-must-be-assigned-before-closing-chat" ↔
      ((params3w.options.clientActionB = true ∧
        concatUnique [params3w.options.tags, room3w.tags] = []) ∨
        dept3w.chatClosingTags.getD [] = [])) ∧
    (∀ e, closeRoom f3w 1000 params3w = .error e →
      closeEffects (closeRoom f3w 1000 params3w) = ([], [], false)) :=
  closeRoom_tag_policy_iff f3w 1000 params3w room3w "D1" dept3w rfl rfl rfl rfl rfl rfl

/-! ## C5: the recorded tag set is the union of the three sources -/

/-- The set of tags denoted by an optional tag list (absent = empty). -/
def tagSet (o : Option (List String)) : Finset String :=
  (o.getD []).toFinset

theorem mem_tagSet {o : Option (List String)} {x : String} :
    x ∈ tagSet o ↔ x ∈ o.getD [] :=
  List.mem_toFinset

theorem tagSet_setTagsIfNonempty (opts : ROptions) (ts : List String)
    (hsub : ∀ x, x ∈ opts.tags.getD [] → x ∈ ts) :
    tagSet (setTagsIfNonempty opts ts).tags = ts.toFinset := by
  unfold setTagsIfNonempty
  split
  · next hnil =>
    subst hnil
    ext x
    simp only [List.toFinset_nil, Finset.not_mem_empty, iff_false, mem_tagSet]
    intro hx
    exact absurd (hsub x hx) (List.not_mem_nil x)
  · next => rfl

/-- C5: on a close request for a room whose department exists, the tag
list recorded in the successfully resolved options denotes exactly the
set union of the room's tags, the request's tags, and the department's
mandatory closing tags — deduplicated and order-irrelevant. -/
theorem resolveChatTags_union (f : String → Option Department) (room : Room)
    (opts : ROptions) (did : String) (dept : Department) (out : ROptions)
    (hdid : room.departmentId = some did) (hdept : f did = some dept)
    (hok : resolveChatTags f room opts = .ok out) :
    tagSet out.tags = tagSet room.tags ∪ tagSet opts.tags ∪ tagSet dept.chatClosingTags := by
  unfold resolveChatTags at hok
  simp only [hdid, hdept] at hok
  have hout : out = setTagsIfNonempty opts
      (concatUnique [some (concatUnique [opts.tags, room.tags]), dept.chatClosingTags]) := by
    split at hok
    · injection hok with h
      exact h.symm
    · split at hok
      · simp at hok
      · injection hok with h
        exact h.symm
  rw [hout, tagSet_setTagsIfNonempty]
  · ext x
    simp only [List.mem_toFinset, mem_concatUnique_pair, Option.getD_some,
      Finset.mem_union, mem_tagSet]
    tauto
  · intro x hx
    rw [mem_concatUnique_pair, Option.getD_some, mem_concatUnique_pair]
    exact Or.inl (Or.inl hx)

/-- Department of the C5 witness: mandatory closing tags `["x", "a"]`. -/
def dept5 : Department :=
  { fallbackForwardDepartment := none
    requestTagBeforeClosingChat := false
    chatClosingTags := some ["x", "a"] }

/-- Directory containing only `dept5`. -/
def f5 : String → Option Department :=
  fun d => if d = "D5" then some dept5 else none

/-- A room of department `D5` tagged `["b"]`. -/
def room5 : Room :=
  { _id := "r5", t := "l", isOpen := true, ts := 0, servedBy := none
    departmentId := some "D5", tags := some ["b"], v := none, transcriptRequest := false }

/-- A close request supplying the tag `"a"`. -/
def opts5 : ROptions :=
  { clientAction := none, tags := some ["a"]
    emailTranscript := none, pdfTranscript := none }

/-- The resolved options for the C5 witness. -/
def out5 : ROptions :=
  { clientAction := none, tags := some ["a", "b", "x"]
    emailTranscript := none, pdfTranscript := none }

theorem resolveChatTags_union_witness :
    tagSet out5.tags = tagSet room5.tags ∪ tagSet opts5.tags ∪ tagSet dept5.chatClosingTags :=
  resolveChatTags_union f5 room5 opts5 "D5" dept5 out5 rfl rfl (by rfl)

/-! ## C10: resolveChatTags only touches the tags field -/

/-- The merged tag list that each successful return path of
`resolveChatTags` computes before the `...(tags.length && { tags })`
spread: the deduplicated request+room tags (`roomTags`), further merged
with the department's mandatory closing tags (`extraRoomTags`) when the
room's department exists in the directory. -/
def mergedTags (f : String → Option Department) (room : Room) (opts : ROptions) :
    List String :=
  match room.departmentId with
  | none => concatUnique [opts.tags, room.tags]
  | some did =>
    match f did with
    | none => concatUnique [opts.tags, room.tags]
    | some dept =>
      concatUnique [some (concatUnique [opts.tags, room.tags]), dept.chatClosingTags]

theorem setTagsIfNonempty_frame_merge (opts : ROptions) (ts : List String) :
    (setTagsIfNonempty opts ts).clientAction = opts.clientAction ∧
    (setTagsIfNonempty opts ts).emailTranscript = opts.emailTranscript ∧
    (setTagsIfNonempty opts ts).pdfTranscript = opts.pdfTranscript ∧
    (ts = [] → (setTagsIfNonempty opts ts).tags = opts.tags) ∧
    (ts ≠ [] → (setTagsIfNonempty opts ts).tags = some ts) := by
  unfold setTagsIfNonempty
  split
  · next h => exact ⟨rfl, rfl, rfl, fun _ => rfl, fun hne => absurd h hne⟩
  · next h => exact ⟨rfl, rfl, rfl, fun he => absurd he h, fun _ => rfl⟩

/-- C10 (amended): `resolveChatTags` is pure (no store write) and, on
success, leaves `clientAction`, `emailTranscript` and `pdfTranscript`
untouched, and at most adds or replaces the `tags` field: when the
merged tag list is empty the `tags` field is left exactly as supplied
in the input options (absent only if it was absent in the input, and a
present empty list is retained, not removed), and when the merged tag
list is non-empty the `tags` field is exactly that merged list. -/
theorem resolveChatTags_frame (f : String → Option Department) (room : Room)
    (opts out : ROptions) (hok : resolveChatTags f room opts = .ok out) :
    out.clientAction = opts.clientAction ∧
    out.emailTranscript = opts.emailTranscript ∧
    out.pdfTranscript = opts.pdfTranscript ∧
    (mergedTags f room opts = [] → out.tags = opts.tags) ∧
    (mergedTags f room opts ≠ [] → out.tags = some (mergedTags f room opts)) := by
  unfold resolveChatTags at hok
  split at hok
  · next hdid =>
    injection hok with h
    subst h
    have hm : mergedTags f room opts = concatUnique [opts.tags, room.tags] := by
      simp only [mergedTags, hdid]
    rw [hm]
    exact setTagsIfNonempty_frame_merge _ _
  · next did hdid =>
    split at hok
    · next hf =>
      injection hok with h
      subst h
      have hm : mergedTags f room opts = concatUnique [opts.tags, room.tags] := by
        simp only [mergedTags, hdid, hf]
      rw [hm]
      exact setTagsIfNonempty_frame_merge _ _
    · next dep hf =>
      have hm : mergedTags f room opts =
          concatUnique [some (concatUnique [opts.tags, room.tags]), dep.chatClosingTags] := by
        simp only [mergedTags, hdid, hf]
      split at hok
      · injection hok with h
        subst h
        rw [hm]
        exact setTagsIfNonempty_frame_merge _ _
      · simp only [] at hok
        split at hok
        · simp at hok
        · injection hok with h
          subst h
          rw [hm]
          exact setTagsIfNonempty_frame_merge _ _

/-- A department-less room with no tags. -/
def roomX : Room :=
  { _id := "rx", t := "l", isOpen := true, ts := 0, servedBy := none
    departmentId := none, tags := none, v := none, transcriptRequest := false }

/-- A close request whose `tags` field is a present empty list. -/
def optsX : ROptions :=
  { clientAction := none, tags := some []
    emailTranscript := none, pdfTranscript := none }

/-- C10 counterexample: the claim says that when the merged tag set is
empty, the `tags` field is absent from the result.  With input options
whose `tags` is a present empty list, the merged set is empty, yet the
result is exactly the input options — its `tags` field is still the
present empty list `some []`, not absent. -/
theorem resolveChatTags_empty_tags_counterexample :
    concatUnique [optsX.tags, roomX.tags] = [] ∧
    resolveChatTags (fun _ => none) roomX optsX = .ok optsX ∧
    optsX.tags = some [] :=
  ⟨rfl, rfl, rfl⟩

/-- A department-less room tagged `["b"]`. -/
def roomXw : Room :=
  { _id := "rxw", t := "l", isOpen := true, ts := 0, servedBy := none
    departmentId := none, tags := some ["b"], v := none, transcriptRequest := false }

/-- A close request with every optional field populated. -/
def optsXw : ROptions :=
  { clientAction := some true, tags := some ["a"]
    emailTranscript := some true, pdfTranscript := some "p" }

/-- The resolved options for the C10 witness. -/
def outXw : ROptions :=
  { clientAction := some true, tags := some ["a", "b"]
    emailTranscript := some true, pdfTranscript := some "p" }

theorem resolveChatTags_frame_witness :
    outXw.clientAction = optsXw.clientAction ∧
    outXw.emailTranscript = optsXw.emailTranscript ∧
    outXw.pdfTranscript = optsXw.pdfTranscript ∧
    (mergedTags (fun _ => none) roomXw optsXw = [] → outXw.tags = optsXw.tags) ∧
    (mergedTags (fun _ => none) roomXw optsXw ≠ [] →
      outXw.tags = some (mergedTags (fun _ => none) roomXw optsXw)) :=
  resolveChatTags_frame (fun _ => none) roomXw optsXw outXw (by rfl)

/-! ## C8 and C9: transcript generation -/

theorem sendTranscript_sent_inv (env : TranscriptEnv) (token rid email : String)
    (user : Option AuditUser) (out : TranscriptOutcome)
    (h : sendTranscript env token rid email user = .sent out) :
    out.includedMessages = findVisibleByRoomIdNotContainingTypesBeforeTs
      (env.roomMessages rid) ignoredMessageTypes
      ((env.closingMessageTs rid).getD env.now) := by
  unfold sendTranscript at h
  split at h
  · simp at h
  · split at h
    · simp at h
    · split at h
      · simp only [] at h
        split at h
        · simp at h
        · injection h with h2
          rw [← h2]
      · simp at h

/-- C8: every message rendered into the transcript document has a type
outside the fixed ignored-type set, a timestamp strictly before the
closing message's timestamp (or the current time when no closing
message exists), and the rendered list is ordered by timestamp
ascending. -/
theorem sendTranscript_included_messages (env : TranscriptEnv) (token rid email : String)
    (user : Option AuditUser) (out : TranscriptOutcome)
    (hok : sendTranscript env token rid email user = .sent out) :
    (∀ m ∈ out.includedMessages,
      (∀ ty, m.t = some ty → ty ∉ ignoredMessageTypes) ∧
      m.ts < (env.closingMessageTs rid).getD env.now) ∧
    List.Sorted msgLe out.includedMessages := by
  rw [sendTranscript_sent_inv env token rid email user out hok]
  constructor
  · intro m hm
    rw [findVisibleByRoomIdNotContainingTypesBeforeTs, List.mem_insertionSort] at hm
    have hpred := List.of_mem_filter hm
    rw [Bool.and_eq_true] at hpred
    obtain ⟨hty, hts⟩ := hpred
    constructor
    · intro ty hty2
      rw [hty2] at hty
      simp only [Bool.not_eq_true', decide_eq_false_iff_not] at hty
      exact hty
    · exact of_decide_eq_true hts
  · exact List.sorted_insertionSort msgLe _

/-- A plain visitor message at `ts = 10`. -/
def msg8a : Msg := { _id := "m1", t := none, ts := 10, uId := "v1", msg := "hello" }

/-- A `command` system message at `ts = 5` (in the ignored set). -/
def msg8b : Msg := { _id := "m2", t := some "command", ts := 5, uId := "v1", msg := "x" }

/-- The visitor of the C8 witness. -/
def visitor8 : Visitor := { _id := "v1", token := "tok", username := none, language := none }

/-- The room of the C8 witness. -/
def room8 : Room :=
  { _id := "r8", t := "l", isOpen := false, ts := 0, servedBy := none
    departmentId := none, tags := none, v := some visitor8, transcriptRequest := false }

/-- Environment of the C8 witness: room `r8` with two stored messages,
a recorded closing message at `ts = 100`. -/
def env8 : TranscriptEnv :=
  { findRoom := fun r => if r = "r8" then some room8 else none
    getVisitorByToken := fun t => if t = "tok" then some visitor8 else none
    roomMessages := fun _ => [msg8a, msg8b]
    closingMessageTs := fun _ => some 100
    now := 1000
    rocketCat := none }

/-- The transcript outcome of the C8 witness: the `command` message is
excluded, the plain message is included. -/
def out8 : TranscriptOutcome :=
  { includedMessages := [msg8a], emailTo := "a@b.c"
    auditType := "user", auditUserId := "u1" }

theorem sendTranscript_included_messages_witness :
    (∀ m ∈ out8.includedMessages,
      (∀ ty, m.t = some ty → ty ∉ ignoredMessageTypes) ∧
      m.ts < (env8.closingMessageTs "r8").getD env8.now) ∧
    List.Sorted msgLe out8.includedMessages :=
  sendTranscript_included_messages env8 "tok" "r8" "a@b.c"
    (some { _id := "u1", username := some "support" }) out8 (by rfl)

/-- C9 (amended): `sendTranscript` fails with the invalid-token error
whenever no visitor exists for the supplied token; **when a visitor
does exist**, it fails with the invalid-room error whenever the room is
absent, is not a visitor-conversation (`'l'`) room, or its visitor's
token does not equal the supplied token; in every such failure no email
has been dispatched and no transcript audit message is written. -/
theorem sendTranscript_guard_errors (env : TranscriptEnv) (token rid email : String)
    (user : Option AuditUser) :
    (env.getVisitorByToken token = none →
      sendTranscript env token rid email user = .failed "error-invalid-token" false) ∧
    (∀ v, env.getVisitorByToken token = some v →
      (env.findRoom rid = none ∨
        ∃ room, env.findRoom rid = some room ∧
          ¬(room.t = "l" ∧ room.v.map Visitor.token = some token)) →
      sendTranscript env token rid email user = .failed "error-invalid-room" false) ∧
    (∀ e, sendTranscript env token rid email user = .failed e false →
      transcriptAuditWrites (sendTranscript env token rid email user) = [] ∧
      transcriptEmailSent (sendTranscript env token rid email user) = false) := by
  refine ⟨?_, ?_, ?_⟩
  · intro hv
    unfold sendTranscript
    rw [hv]
  · intro v hv hroom
    unfold sendTranscript
    rw [hv]
    rcases hroom with hr | ⟨room, hr, hcond⟩
    · rw [hr]
    · rw [hr]
      simp only [if_neg hcond]
  · intro e he
    rw [he]
    exact ⟨rfl, rfl⟩

/-- Environment of the C9 witness and counterexample: no visitor and no
room exist at all. -/
def env9 : TranscriptEnv :=
  { findRoom := fun _ => none
    getVisitorByToken := fun _ => none
    roomMessages := fun _ => []
    closingMessageTs := fun _ => none
    now := 0
    rocketCat := none }

theorem sendTranscript_guard_errors_witness :
    sendTranscript env9 "tok" "r1" "a@b.c" none = .failed "error-invalid-token" false ∧
    transcriptAuditWrites (sendTranscript env9 "tok" "r1" "a@b.c" none) = [] ∧
    transcriptEmailSent (sendTranscript env9 "tok" "r1" "a@b.c" none) = false := by
  have hfail := (sendTranscript_guard_errors env9 "tok" "r1" "a@b.c" none).1 rfl
  have heff := (sendTranscript_guard_errors env9 "tok" "r1" "a@b.c" none).2.2
    "error-invalid-token" hfail
  exact ⟨hfail, heff.1, heff.2⟩

/-- C9 counterexample: the claim asserts unconditionally that
`sendTranscript` fails with the invalid-**room** error whenever the
room is absent.  In `env9` the room `r1` is absent, yet — the token
having no visitor either, and the visitor check running first — the
call fails with the invalid-**token** error, a different error. -/
theorem sendTranscript_error_priority_counterexample :
    env9.findRoom "r1" = none ∧
    sendTranscript env9 "tok" "r1" "a@b.c" none = .failed "error-invalid-token" false ∧
    ("error-invalid-token" : String) ≠ "error-invalid-room" := by
  refine ⟨rfl, rfl, ?_⟩
  decide
